import Mathlib

/-!
Verification of the quickjs-wasm host-capability bridge
(`crates/quickjs-wasm/src/context.rs`).

The file shallowly embeds the two bridge callbacks:

* `console_log_to` — the logging bridge: joins the textual forms of its
  arguments with single spaces and performs one `writeln!` to its bound
  stream;
* `fetch_callback` — the network bridge: validates the argument count,
  serializes the first four arguments to UTF-8 byte buffers, performs a
  single foreign `req` call, and translates the host's return code and
  output cells into a script value or an error.

Modelling decisions:

* A script value (`JSValueRef`) is modelled by the constructors the
  bridges can observe; the only operation the bridges apply to one is
  `to_string`, the engine's total textual coercion.
* The foreign import `req` takes ten numeric parameters.  A
  pointer/length pair for a byte buffer is modelled by the pointed-to
  byte sequence together with the passed length (`List Nat` of byte
  values, each < 256, plus the `u32` length); the `ReqCall` structure
  lists the eight data parameters in exactly the order of the `extern`
  declaration.  The two output-cell addresses (ninth and tenth
  parameters) are modelled by where the host's writes land: the host
  behaviour (`HostReturn`) records the `u32` return code of `req`
  together with the values the host stores through `status_code_ptr`
  (a `u16` cell) and `res_handle_ptr` (a `u32` cell).
* The host is an arbitrary function `ReqCall → HostReturn`; the bridge
  additionally returns the list of `req` calls it performed, so that
  "zero host calls" / "exactly one host call" are statable.
* Errors are `anyhow` errors carrying a message string, modelled as
  `Except String`.
* The writable stream of the logging bridge is modelled by its response
  to the single write: a function from written content to an optional
  I/O error.  The bridge returns the list of write attempts it made.
-/

/-- Script values as seen by the bridge callbacks (`JSValueRef` of
`quickjs_wasm_rs`), restricted to the constructors the bridges can
observe.  Script numbers are modelled by their integral values. -/
inductive JSValueRef where
  | str : String → JSValueRef
  | int : Int → JSValueRef
  | bool : Bool → JSValueRef
  | undefined : JSValueRef
  | null : JSValueRef
deriving DecidableEq

/-- The engine's textual coercion used at `arg.to_string()`: total, never
fails, decimal rendering for numbers. -/
def JSValueRef.to_string : JSValueRef → String
  | .str s => s
  | .int n => n.repr
  | .bool b => if b then "true" else "false"
  | .undefined => "undefined"
  | .null => "null"

/-- Script values the bridges return (`JSValue` of `quickjs_wasm_rs`),
restricted to the constructors the bridges produce. -/
inductive JSValue where
  | Undefined : JSValue
  | String : String → JSValue
deriving DecidableEq

/-- `String::as_bytes`: the UTF-8 byte sequence of a Rust string, as
natural numbers (each < 256).  This is exactly Lean's
`String.toUTF8`, written in its unfolded form. -/
def strBytes (s : String) : List Nat :=
  (s.data.flatMap String.utf8EncodeChar).map (fun b => b.toNat)

/-- The ten-parameter foreign call received by the host import `req`,
with the eight data parameters in the order of the `extern`
declaration: (url ptr, url len, method ptr, method len, headers ptr,
headers len, body ptr, body len).  A pointer is modelled by the byte
buffer it points to.  The ninth and tenth parameters (the status-code
and response-handle output cell addresses) are modelled by the
`HostReturn` write fields. -/
structure ReqCall where
  url_ptr : List Nat
  url_len : Nat
  method_ptr : List Nat
  method_len : Nat
  req_headers_ptr : List Nat
  req_headers_len : Nat
  req_body_ptr : List Nat
  req_body_len : Nat
deriving DecidableEq

/-- The host's observable behaviour on one `req` call: the `u32` return
code, and the values it stores through the status-code output cell
(`u16`) and the response-handle output cell (`u32`). -/
structure HostReturn where
  ret : Nat
  status : Nat
  handle : Nat

/-- Overriding what a host writes into the two output cells while
keeping its return codes: used to state that a result does not depend
on the cell contents. -/
def overrideCells (host : ReqCall → HostReturn) (s h : Nat) : ReqCall → HostReturn :=
  fun c => { ret := (host c).ret, status := s, handle := h }

/-- The success string built at the end of `fetch_callback`:
`format!("fetch result: status code {}, response handle {}", status_code, res_handle)`. -/
def fetchResultString (status_code res_handle : Nat) : String :=
  "fetch result: status code " ++ Nat.repr status_code ++
    ", response handle " ++ Nat.repr res_handle

/-- The network bridge `fetch_callback` (context.rs lines 64–127),
parameterized by the host behaviour.  Returns the bridge result
together with the list of `req` calls performed.  `u32`/`u16`
truncations (`as u32` casts, the width of the output cells, the `u32`
return value of `req`) are written as `% 2 ^ 32` / `% 2 ^ 16`. -/
def fetch_callback (host : ReqCall → HostReturn) (args : List JSValueRef) :
    Except String JSValue × List ReqCall :=
  if h : args.length < 4 then
    (Except.error "fetch requires at least four arguments", [])
  else
    let url := (args.get ⟨0, by omega⟩).to_string
    let method := (args.get ⟨1, by omega⟩).to_string
    let body := (args.get ⟨2, by omega⟩).to_string
    let headers := (args.get ⟨3, by omega⟩).to_string
    let url_bytes := strBytes url
    let url_ptr := url_bytes
    let url_len := url_bytes.length % 2 ^ 32
    let method_bytes := strBytes method
    let method_ptr := method_bytes
    let method_len := method_bytes.length % 2 ^ 32
    let body_bytes := strBytes body
    let body_ptr := body_bytes
    let body_len := body_bytes.length % 2 ^ 32
    let headers_bytes := strBytes headers
    let headers_ptr := headers_bytes
    let headers_len := headers_bytes.length % 2 ^ 32
    let call : ReqCall :=
      { url_ptr := url_ptr
        url_len := url_len
        method_ptr := method_ptr
        method_len := method_len
        req_headers_ptr := headers_ptr
        req_headers_len := headers_len
        req_body_ptr := body_ptr
        req_body_len := body_len }
    let r := host call
    let res : Nat := r.ret % 2 ^ 32
    if res ≠ 0 then
      (Except.error "fetch failed", [call])
    else
      let status_code := r.status % 2 ^ 16
      let res_handle := r.handle % 2 ^ 32
      (Except.ok (JSValue.String (fetchResultString status_code res_handle)), [call])

/-- The serialization block of `fetch_callback` (context.rs lines 72–92)
factored out for reuse in theorem statements: the `req` call built from
the textual forms of the first four arguments.  `fetch_callback_eq`
proves that `fetch_callback` performs exactly this call. -/
def serializedCall (args : List JSValueRef) : ReqCall :=
  { url_ptr := strBytes (args.getD 0 .undefined).to_string
    url_len := (strBytes (args.getD 0 .undefined).to_string).length % 2 ^ 32
    method_ptr := strBytes (args.getD 1 .undefined).to_string
    method_len := (strBytes (args.getD 1 .undefined).to_string).length % 2 ^ 32
    req_headers_ptr := strBytes (args.getD 3 .undefined).to_string
    req_headers_len := (strBytes (args.getD 3 .undefined).to_string).length % 2 ^ 32
    req_body_ptr := strBytes (args.getD 2 .undefined).to_string
    req_body_len := (strBytes (args.getD 2 .undefined).to_string).length % 2 ^ 32 }

/-- The logging bridge `console_log_to` (context.rs lines 40–62),
parameterized by the bound stream's response to a write
(`none` = success, `some e` = the I/O error of the failed write).
Returns the bridge result together with the list of write attempts.
The loop builds `log_line` exactly as the source does; `writeln!`
appends one newline and performs the single write. -/
def console_log_to (writeErr : String → Option String) (args : List JSValueRef) :
    Except String JSValue × List String :=
  let log_line := args.enum.foldl
    (fun acc p =>
      (if p.1 ≠ 0 then acc.push ' ' else acc) ++ p.2.to_string) ""
  let content := log_line ++ "\n"
  match writeErr content with
  | some e => (Except.error e, [content])
  | none => (Except.ok JSValue.Undefined, [content])

/-- Spec-side description of the log line: the arguments' textual forms
joined by a single space. -/
def joinWithSpace : List String → String
  | [] => ""
  | [s] => s
  | s :: rest => s ++ " " ++ joinWithSpace rest

/-- All but the first joined argument, each preceded by one space. -/
def joinTail : List String → String
  | [] => ""
  | s :: rest => " " ++ s ++ joinTail rest

/-- Decimal digit sequence of a positive natural number, most
significant digit first (empty for 0). -/
def decDigits (n : Nat) : List Char :=
  if h : n = 0 then []
  else decDigits (n / 10) ++ [Nat.digitChar (n % 10)]
termination_by n
decreasing_by exact Nat.div_lt_self (Nat.pos_of_ne_zero h) (by omega)

/-- The character list underlying `Nat.repr`. -/
def reprChars (n : Nat) : List Char :=
  if n = 0 then ['0'] else decDigits n

/-- Strip an expected leading character sequence, returning the rest. -/
def stripPre : List Char → List Char → Option (List Char)
  | [], cs => some cs
  | _ :: _, [] => none
  | p :: ps, c :: cs => if c = p then stripPre ps cs else none

/-- Numeric value of a decimal digit character. -/
def digitVal (c : Char) : Nat := c.toNat - 48

/-- Natural number denoted by a decimal digit sequence. -/
def chars2nat (cs : List Char) : Nat :=
  cs.foldl (fun a c => a * 10 + digitVal c) 0

/-- Decoding of the part of the success string after the fixed leading
text: a digit run (the status code), the fixed separator, a digit run
(the response handle). -/
def decodeRest (rest : List Char) : Option (Nat × Nat) :=
  if rest.takeWhile Char.isDigit = [] then none
  else
    match stripPre ", response handle ".data (rest.dropWhile Char.isDigit) with
    | none => none
    | some hs =>
      if hs ≠ [] ∧ hs.all Char.isDigit then
        some (chars2nat (rest.takeWhile Char.isDigit), chars2nat hs)
      else none

/-- Decoder a caller can apply to the network bridge's success string to
recover the status code and the response handle. -/
def decodeFetchResult (s : String) : Option (Nat × Nat) :=
  match stripPre "fetch result: status code ".data s.data with
  | none => none
  | some rest => decodeRest rest

/-! ### Decimal rendering round-trip -/

theorem decDigits_zero : decDigits 0 = [] := by
  unfold decDigits
  simp

theorem decDigits_pos (n : Nat) (h : n ≠ 0) :
    decDigits n = decDigits (n / 10) ++ [Nat.digitChar (n % 10)] := by
  conv_lhs => unfold decDigits
  simp [h]

theorem toDigitsCore_eq_decDigits (f : Nat) :
    ∀ n ds, 0 < n → n < f → Nat.toDigitsCore 10 f n ds = decDigits n ++ ds := by
  induction f with
  | zero => intro n ds hn hf; omega
  | succ f ih =>
    intro n ds hn hf
    simp only [Nat.toDigitsCore]
    by_cases h10 : n / 10 = 0
    · rw [if_pos h10, decDigits_pos n (by omega), h10, decDigits_zero]
      simp
    · rw [if_neg h10]
      have hlt : n / 10 < f := by
        have hd : n / 10 < n := Nat.div_lt_self hn (by norm_num)
        omega
      rw [ih (n / 10) _ (Nat.pos_of_ne_zero h10) hlt]
      rw [decDigits_pos n (by omega), List.append_assoc]
      rfl

theorem repr_data (n : Nat) : (Nat.repr n).data = reprChars n := by
  by_cases h : n = 0
  · subst h; decide
  · show (Nat.toDigits 10 n).asString.data = reprChars n
    unfold Nat.toDigits
    rw [toDigitsCore_eq_decDigits (n + 1) n [] (Nat.pos_of_ne_zero h) (by omega)]
    show decDigits n ++ [] = reprChars n
    rw [List.append_nil, reprChars, if_neg h]

theorem digitChar_isDigit (d : Nat) (hd : d < 10) : (Nat.digitChar d).isDigit = true := by
  have h : ∀ d, d < 10 → (Nat.digitChar d).isDigit = true := by decide
  exact h d hd

theorem digitVal_digitChar (d : Nat) (hd : d < 10) : digitVal (Nat.digitChar d) = d := by
  have h : ∀ d, d < 10 → digitVal (Nat.digitChar d) = d := by decide
  exact h d hd

theorem decDigits_all_isDigit (n : Nat) : (decDigits n).all Char.isDigit = true := by
  induction n using Nat.strong_induction_on with
  | _ n ih =>
    by_cases h : n = 0
    · subst h; rw [decDigits_zero]; rfl
    · rw [decDigits_pos n h, List.all_append]
      have h1 := ih (n / 10) (Nat.div_lt_self (Nat.pos_of_ne_zero h) (by norm_num))
      have h2 : (Nat.digitChar (n % 10)).isDigit = true :=
        digitChar_isDigit _ (Nat.mod_lt _ (by norm_num))
      simp [h1, h2]

theorem reprChars_all_isDigit (n : Nat) : (reprChars n).all Char.isDigit = true := by
  by_cases h : n = 0
  · subst h; decide
  · rw [reprChars, if_neg h]; exact decDigits_all_isDigit n

theorem reprChars_ne_nil (n : Nat) : reprChars n ≠ [] := by
  by_cases h : n = 0
  · subst h; decide
  · rw [reprChars, if_neg h, decDigits_pos n h]
    simp

theorem foldl_decDigits (n : Nat) : ∀ a : Nat,
    (decDigits n).foldl (fun a c => a * 10 + digitVal c) a =
      a * 10 ^ (decDigits n).length + n := by
  induction n using Nat.strong_induction_on with
  | _ n ih =>
    intro a
    by_cases h : n = 0
    · subst h; rw [decDigits_zero]; simp
    · conv_lhs => rw [decDigits_pos n h]
      rw [List.foldl_append, ih (n / 10) (Nat.div_lt_self (Nat.pos_of_ne_zero h) (by omega)) a]
      conv_rhs => rw [decDigits_pos n h]
      rw [List.length_append]
      simp only [List.foldl_cons, List.foldl_nil, List.length_cons, List.length_nil]
      rw [digitVal_digitChar _ (Nat.mod_lt _ (by omega))]
      calc (a * 10 ^ (decDigits (n / 10)).length + n / 10) * 10 + n % 10
          = a * (10 ^ (decDigits (n / 10)).length * 10) + (10 * (n / 10) + n % 10) := by ring
        _ = a * 10 ^ ((decDigits (n / 10)).length + (0 + 1)) + n := by
            rw [Nat.div_add_mod, Nat.zero_add, pow_succ]

theorem chars2nat_reprChars (n : Nat) : chars2nat (reprChars n) = n := by
  by_cases h : n = 0
  · subst h; decide
  · rw [reprChars, if_neg h]
    show (decDigits n).foldl (fun a c => a * 10 + digitVal c) 0 = n
    rw [foldl_decDigits n 0]
    simp

theorem stripPre_append (p : List Char) : ∀ cs, stripPre p (p ++ cs) = some cs := by
  induction p with
  | nil => intro cs; rfl
  | cons x xs ih => intro cs; simp [stripPre, ih]

theorem takeWhile_append_cons (p : Char → Bool) (c : Char) (hc : p c = false) :
    ∀ l1 l2 : List Char, l1.all p = true →
      ((l1 ++ c :: l2).takeWhile p = l1 ∧ (l1 ++ c :: l2).dropWhile p = c :: l2) := by
  intro l1
  induction l1 with
  | nil =>
    intro l2 _
    constructor
    · rw [List.nil_append, List.takeWhile_cons, hc]; simp
    · rw [List.nil_append, List.dropWhile_cons, hc]; simp
  | cons x xs ih =>
    intro l2 h1
    rw [List.all_cons] at h1
    have hx : p x = true := by
      cases hpx : p x
      · rw [hpx] at h1; simp at h1
      · rfl
    have hxs : xs.all p = true := by
      rw [hx] at h1; simpa using h1
    obtain ⟨ht, hd⟩ := ih l2 hxs
    constructor
    · rw [List.cons_append, List.takeWhile_cons, hx]
      simp [ht]
    · rw [List.cons_append, List.dropWhile_cons, hx]
      simpa using hd

theorem decodeRest_reprChars (S H : Nat) :
    decodeRest (reprChars S ++ (", response handle ".data ++ reprChars H)) = some (S, H) := by
  have hsep : (", response handle ".data : List Char) = ',' :: " response handle ".data := rfl
  obtain ⟨ht, hd⟩ := takeWhile_append_cons Char.isDigit ',' (by decide)
    (reprChars S) (" response handle ".data ++ reprChars H) (reprChars_all_isDigit S)
  unfold decodeRest
  rw [hsep, List.cons_append, ht, hd]
  rw [if_neg (reprChars_ne_nil S)]
  rw [show (',' :: (" response handle ".data ++ reprChars H)) =
      ((',' :: " response handle ".data) ++ reprChars H) from (List.cons_append ..).symm]
  rw [stripPre_append]
  change (if reprChars H ≠ [] ∧ (reprChars H).all Char.isDigit = true then
      some (chars2nat (reprChars S), chars2nat (reprChars H)) else none) = some (S, H)
  rw [if_pos ⟨reprChars_ne_nil H, reprChars_all_isDigit H⟩]
  rw [chars2nat_reprChars, chars2nat_reprChars]

theorem decode_fetchResultString (S H : Nat) :
    decodeFetchResult (fetchResultString S H) = some (S, H) := by
  have hdata : (fetchResultString S H).data =
      "fetch result: status code ".data ++
        (reprChars S ++ (", response handle ".data ++ reprChars H)) := by
    show ("fetch result: status code " ++ Nat.repr S ++
        ", response handle " ++ Nat.repr H).data = _
    rw [String.data_append, String.data_append, String.data_append]
    rw [repr_data, repr_data, List.append_assoc, List.append_assoc]
  unfold decodeFetchResult
  rw [hdata, stripPre_append]
  exact decodeRest_reprChars S H

/-! ### Shape of one `fetch_callback` invocation -/

theorem fetch_callback_eq (host : ReqCall → HostReturn) (args : List JSValueRef)
    (h : 4 ≤ args.length) :
    fetch_callback host args =
      if (host (serializedCall args)).ret % 2 ^ 32 ≠ 0 then
        (Except.error "fetch failed", [serializedCall args])
      else
        (Except.ok (JSValue.String (fetchResultString
            ((host (serializedCall args)).status % 2 ^ 16)
            ((host (serializedCall args)).handle % 2 ^ 32))),
          [serializedCall args]) := by
  have h0 : args.getD 0 JSValueRef.undefined = args.get ⟨0, by omega⟩ := by
    rw [List.getD_eq_getElem args JSValueRef.undefined (by omega)]; rfl
  have h1 : args.getD 1 JSValueRef.undefined = args.get ⟨1, by omega⟩ := by
    rw [List.getD_eq_getElem args JSValueRef.undefined (by omega)]; rfl
  have h2 : args.getD 2 JSValueRef.undefined = args.get ⟨2, by omega⟩ := by
    rw [List.getD_eq_getElem args JSValueRef.undefined (by omega)]; rfl
  have h3 : args.getD 3 JSValueRef.undefined = args.get ⟨3, by omega⟩ := by
    rw [List.getD_eq_getElem args JSValueRef.undefined (by omega)]; rfl
  unfold fetch_callback serializedCall
  rw [dif_neg (by omega : ¬ args.length < 4), h0, h1, h2, h3]

/-! ### The logging bridge's loop -/

theorem joinWithSpace_cons (s : String) (rest : List String) :
    joinWithSpace (s :: rest) = s ++ joinTail rest := by
  induction rest generalizing s with
  | nil => show joinWithSpace [s] = s ++ joinTail []; simp [joinWithSpace, joinTail]
  | cons r rs ih =>
    show s ++ " " ++ joinWithSpace (r :: rs) = s ++ joinTail (r :: rs)
    rw [ih r]
    show s ++ " " ++ (r ++ joinTail rs) = s ++ (" " ++ r ++ joinTail rs)
    simp [String.append_assoc]

theorem foldl_enumFrom_log (rest : List JSValueRef) : ∀ (i : Nat) (acc : String), i ≠ 0 →
    (List.enumFrom i rest).foldl
      (fun acc p => (if p.1 ≠ 0 then acc.push ' ' else acc) ++ p.2.to_string) acc
      = acc ++ joinTail (rest.map JSValueRef.to_string) := by
  induction rest with
  | nil =>
    intro i acc _
    show acc = acc ++ joinTail []
    simp [joinTail]
  | cons a rest ih =>
    intro i acc hi
    rw [List.enumFrom_cons, List.foldl_cons]
    dsimp only
    rw [ih (i + 1) _ (by omega), if_pos hi]
    show acc.push ' ' ++ a.to_string ++ joinTail (rest.map JSValueRef.to_string)
      = acc ++ (" " ++ a.to_string ++ joinTail (rest.map JSValueRef.to_string))
    have hpush : acc.push ' ' = acc ++ " " := rfl
    rw [hpush]
    simp [String.append_assoc]

theorem logLine_eq (args : List JSValueRef) :
    args.enum.foldl (fun acc p => (if p.1 ≠ 0 then acc.push ' ' else acc) ++ p.2.to_string) ""
      = joinWithSpace (args.map JSValueRef.to_string) := by
  cases args with
  | nil => rfl
  | cons a rest =>
    rw [List.enum_cons, List.foldl_cons]
    dsimp only
    rw [foldl_enumFrom_log rest 1 _ (by omega)]
    rw [List.map_cons, joinWithSpace_cons]
    show "" ++ a.to_string ++ joinTail (rest.map JSValueRef.to_string)
      = a.to_string ++ joinTail (rest.map JSValueRef.to_string)
    rfl

/-! ### Shape of one `console_log_to` invocation -/

theorem console_log_to_eq (writeErr : String → Option String) (args : List JSValueRef) :
    console_log_to writeErr args =
      match writeErr (joinWithSpace (args.map JSValueRef.to_string) ++ "\n") with
      | some e => (Except.error e, [joinWithSpace (args.map JSValueRef.to_string) ++ "\n"])
      | none =>
        (Except.ok JSValue.Undefined, [joinWithSpace (args.map JSValueRef.to_string) ++ "\n"]) := by
  unfold console_log_to
  rw [logLine_eq]

/-! ### Claims -/

/-- Claim C1: for every invocation of the network bridge with at least
four arguments, the single foreign host call receives its parameters in
the declared order — url buffer and length first, then method, then the
headers buffer/length taken from the call argument at position 3, then
the body buffer/length taken from the call argument at position 2
(the two output-cell addresses, the ninth and tenth parameters, are
modelled by the `HostReturn` write fields). -/
theorem fetch_req_param_order (host : ReqCall → HostReturn) (args : List JSValueRef)
    (h : 4 ≤ args.length) :
    (fetch_callback host args).2 =
      [{ url_ptr := strBytes (args.getD 0 .undefined).to_string
         url_len := (strBytes (args.getD 0 .undefined).to_string).length % 2 ^ 32
         method_ptr := strBytes (args.getD 1 .undefined).to_string
         method_len := (strBytes (args.getD 1 .undefined).to_string).length % 2 ^ 32
         req_headers_ptr := strBytes (args.getD 3 .undefined).to_string
         req_headers_len := (strBytes (args.getD 3 .undefined).to_string).length % 2 ^ 32
         req_body_ptr := strBytes (args.getD 2 .undefined).to_string
         req_body_len := (strBytes (args.getD 2 .undefined).to_string).length % 2 ^ 32 }] := by
  rw [fetch_callback_eq host args h]
  split <;> rfl

/-- Witness for C1 at four concrete string arguments. -/
theorem fetch_req_param_order_witness :
    4 ≤ ([JSValueRef.str "u", JSValueRef.str "GET", JSValueRef.str "B",
        JSValueRef.str "H"] : List JSValueRef).length ∧
    (fetch_callback (fun _ => ⟨0, 0, 0⟩)
        [JSValueRef.str "u", JSValueRef.str "GET", JSValueRef.str "B",
          JSValueRef.str "H"]).2 =
      [{ url_ptr := [117], url_len := 1
         method_ptr := [71, 69, 84], method_len := 3
         req_headers_ptr := [72], req_headers_len := 1
         req_body_ptr := [66], req_body_len := 1 }] :=
  ⟨by decide, by
    rw [fetch_req_param_order (fun _ => ⟨0, 0, 0⟩) _ (by decide)]
    decide⟩

/-- Claim C2: when the host call's return code is zero, the bridge
result is a success value from which both the 16-bit status code and
the 32-bit handle written by the host are recoverable (via
`decodeFetchResult`). -/
theorem fetch_success_recoverable (host : ReqCall → HostReturn) (args : List JSValueRef)
    (h : 4 ≤ args.length) (h0 : (host (serializedCall args)).ret % 2 ^ 32 = 0) :
    (fetch_callback host args).1 =
      Except.ok (JSValue.String (fetchResultString
        ((host (serializedCall args)).status % 2 ^ 16)
        ((host (serializedCall args)).handle % 2 ^ 32))) ∧
    decodeFetchResult (fetchResultString
        ((host (serializedCall args)).status % 2 ^ 16)
        ((host (serializedCall args)).handle % 2 ^ 32)) =
      some ((host (serializedCall args)).status % 2 ^ 16,
        (host (serializedCall args)).handle % 2 ^ 32) := by
  constructor
  · rw [fetch_callback_eq host args h, if_neg (fun hc => hc h0)]
  · exact decode_fetchResultString _ _

/-- Witness for C2: the host writes status 200 and handle 7; both are
recovered. -/
theorem fetch_success_recoverable_witness :
    4 ≤ ([JSValueRef.str "u", JSValueRef.str "GET", JSValueRef.str "B",
        JSValueRef.str "H"] : List JSValueRef).length ∧
    ((fun _ => (⟨0, 200, 7⟩ : HostReturn))
        (serializedCall [JSValueRef.str "u", JSValueRef.str "GET", JSValueRef.str "B",
          JSValueRef.str "H"])).ret % 2 ^ 32 = 0 ∧
    ((fetch_callback (fun _ => ⟨0, 200, 7⟩)
        [JSValueRef.str "u", JSValueRef.str "GET", JSValueRef.str "B",
          JSValueRef.str "H"]).1 =
      Except.ok (JSValue.String "fetch result: status code 200, response handle 7") ∧
    decodeFetchResult "fetch result: status code 200, response handle 7" = some (200, 7)) :=
  ⟨by decide, by decide,
    fetch_success_recoverable (fun _ => ⟨0, 200, 7⟩)
      [JSValueRef.str "u", JSValueRef.str "GET", JSValueRef.str "B", JSValueRef.str "H"]
      (by decide) (by decide)⟩

/-- Claim C3: when the host call returns nonzero, the bridge result is
the generic "fetch failed" error, and the contents of the two output
cells are never exposed: overriding whatever the host writes into them
leaves the whole bridge result unchanged. -/
theorem fetch_host_failure_error (host : ReqCall → HostReturn) (args : List JSValueRef)
    (h : 4 ≤ args.length) (hr : (host (serializedCall args)).ret % 2 ^ 32 ≠ 0) :
    (fetch_callback host args).1 = Except.error "fetch failed" ∧
    ∀ s hl : Nat, fetch_callback (overrideCells host s hl) args = fetch_callback host args := by
  constructor
  · rw [fetch_callback_eq host args h, if_pos hr]
  · intro s hl
    rw [fetch_callback_eq host args h, fetch_callback_eq (overrideCells host s hl) args h]
    rw [if_pos hr,
      if_pos (show (overrideCells host s hl (serializedCall args)).ret % 2 ^ 32 ≠ 0 from hr)]

/-- Witness for C3: the host returns 1; the result is the generic error
and is unchanged when the cell writes are overridden with 5 and 9. -/
theorem fetch_host_failure_error_witness :
    4 ≤ ([JSValueRef.str "u", JSValueRef.str "GET", JSValueRef.str "B",
        JSValueRef.str "H"] : List JSValueRef).length ∧
    ((fun _ => (⟨1, 200, 7⟩ : HostReturn))
        (serializedCall [JSValueRef.str "u", JSValueRef.str "GET", JSValueRef.str "B",
          JSValueRef.str "H"])).ret % 2 ^ 32 ≠ 0 ∧
    (fetch_callback (fun _ => ⟨1, 200, 7⟩)
        [JSValueRef.str "u", JSValueRef.str "GET", JSValueRef.str "B",
          JSValueRef.str "H"]).1 = Except.error "fetch failed" ∧
    fetch_callback (overrideCells (fun _ => ⟨1, 200, 7⟩) 5 9)
        [JSValueRef.str "u", JSValueRef.str "GET", JSValueRef.str "B", JSValueRef.str "H"] =
      fetch_callback (fun _ => ⟨1, 200, 7⟩)
        [JSValueRef.str "u", JSValueRef.str "GET", JSValueRef.str "B", JSValueRef.str "H"] :=
  ⟨by decide, by decide,
    (fetch_host_failure_error (fun _ => ⟨1, 200, 7⟩)
      [JSValueRef.str "u", JSValueRef.str "GET", JSValueRef.str "B", JSValueRef.str "H"]
      (by decide) (by decide)).1,
    (fetch_host_failure_error (fun _ => ⟨1, 200, 7⟩)
      [JSValueRef.str "u", JSValueRef.str "GET", JSValueRef.str "B", JSValueRef.str "H"]
      (by decide) (by decide)).2 5 9⟩

/-- Claim C4: with fewer than four arguments the network bridge fails
with the argument error and performs zero host calls. -/
theorem fetch_too_few_args (host : ReqCall → HostReturn) (args : List JSValueRef)
    (h : args.length < 4) :
    fetch_callback host args = (Except.error "fetch requires at least four arguments", []) := by
  unfold fetch_callback
  rw [dif_pos h]

/-- Witness for C4 at the empty argument list. -/
theorem fetch_too_few_args_witness :
    ([] : List JSValueRef).length < 4 ∧
    fetch_callback (fun _ => ⟨0, 0, 0⟩) ([] : List JSValueRef) =
      (Except.error "fetch requires at least four arguments", []) :=
  ⟨by decide, fetch_too_few_args (fun _ => ⟨0, 0, 0⟩) [] (by decide)⟩

/-- Claim C5: with four or more arguments exactly one host call is
performed, and arguments beyond the first four have no effect on the
bridge's behaviour. -/
theorem fetch_exactly_one_call_extra_ignored (host : ReqCall → HostReturn)
    (args : List JSValueRef) (h : 4 ≤ args.length) :
    (fetch_callback host args).2.length = 1 ∧
    fetch_callback host args = fetch_callback host (args.take 4) := by
  have hlen : 4 ≤ (args.take 4).length := by
    rw [List.length_take]
    omega
  have e0 : (args.take 4).getD 0 JSValueRef.undefined = args.getD 0 JSValueRef.undefined := by
    rw [List.getD_eq_getElem (args.take 4) JSValueRef.undefined (by omega),
      List.getD_eq_getElem args JSValueRef.undefined (by omega), List.getElem_take]
  have e1 : (args.take 4).getD 1 JSValueRef.undefined = args.getD 1 JSValueRef.undefined := by
    rw [List.getD_eq_getElem (args.take 4) JSValueRef.undefined (by omega),
      List.getD_eq_getElem args JSValueRef.undefined (by omega), List.getElem_take]
  have e2 : (args.take 4).getD 2 JSValueRef.undefined = args.getD 2 JSValueRef.undefined := by
    rw [List.getD_eq_getElem (args.take 4) JSValueRef.undefined (by omega),
      List.getD_eq_getElem args JSValueRef.undefined (by omega), List.getElem_take]
  have e3 : (args.take 4).getD 3 JSValueRef.undefined = args.getD 3 JSValueRef.undefined := by
    rw [List.getD_eq_getElem (args.take 4) JSValueRef.undefined (by omega),
      List.getD_eq_getElem args JSValueRef.undefined (by omega), List.getElem_take]
  have hcall : serializedCall (args.take 4) = serializedCall args := by
    unfold serializedCall
    rw [e0, e1, e2, e3]
  constructor
  · rw [fetch_callback_eq host args h]
    split <;> rfl
  · rw [fetch_callback_eq host args h, fetch_callback_eq host (args.take 4) hlen, hcall]

/-- Witness for C5 at six arguments: one host call, and the two
trailing arguments are ignored. -/
theorem fetch_exactly_one_call_extra_ignored_witness :
    4 ≤ ([JSValueRef.str "u", JSValueRef.str "GET", JSValueRef.str "B", JSValueRef.str "H",
        JSValueRef.str "extra1", JSValueRef.int 42] : List JSValueRef).length ∧
    (fetch_callback (fun _ => ⟨0, 200, 7⟩)
        [JSValueRef.str "u", JSValueRef.str "GET", JSValueRef.str "B", JSValueRef.str "H",
          JSValueRef.str "extra1", JSValueRef.int 42]).2.length = 1 ∧
    fetch_callback (fun _ => ⟨0, 200, 7⟩)
        [JSValueRef.str "u", JSValueRef.str "GET", JSValueRef.str "B", JSValueRef.str "H",
          JSValueRef.str "extra1", JSValueRef.int 42] =
      fetch_callback (fun _ => ⟨0, 200, 7⟩)
        ([JSValueRef.str "u", JSValueRef.str "GET", JSValueRef.str "B", JSValueRef.str "H",
          JSValueRef.str "extra1", JSValueRef.int 42].take 4) :=
  ⟨by decide,
    (fetch_exactly_one_call_extra_ignored (fun _ => ⟨0, 200, 7⟩)
      [JSValueRef.str "u", JSValueRef.str "GET", JSValueRef.str "B", JSValueRef.str "H",
        JSValueRef.str "extra1", JSValueRef.int 42] (by decide)).1,
    (fetch_exactly_one_call_extra_ignored (fun _ => ⟨0, 200, 7⟩)
      [JSValueRef.str "u", JSValueRef.str "GET", JSValueRef.str "B", JSValueRef.str "H",
        JSValueRef.str "extra1", JSValueRef.int 42] (by decide)).2⟩


/-- Claim C6: for every argument sequence, when the bound stream accepts
the write, the logging bridge performs exactly one write whose content
is the arguments' textual forms joined by single spaces followed by one
newline, and returns the script-visible undefined value. -/
theorem console_log_single_write (writeErr : String → Option String) (args : List JSValueRef)
    (h : writeErr (joinWithSpace (args.map JSValueRef.to_string) ++ "\n") = none) :
    console_log_to writeErr args =
      (Except.ok JSValue.Undefined, [joinWithSpace (args.map JSValueRef.to_string) ++ "\n"]) := by
  rw [console_log_to_eq, h]

/-- Witness for C6 at the arguments "a", 1, true: one write of
"a 1 true\n" and an undefined result. -/
theorem console_log_single_write_witness :
    ((fun _ => none : String → Option String)
      (joinWithSpace ([JSValueRef.str "a", JSValueRef.int 1,
        JSValueRef.bool true].map JSValueRef.to_string) ++ "\n") = none) ∧
    console_log_to (fun _ => none)
        [JSValueRef.str "a", JSValueRef.int 1, JSValueRef.bool true] =
      (Except.ok JSValue.Undefined, ["a 1 true\n"]) :=
  ⟨rfl, by
    rw [console_log_single_write (fun _ => none)
      [JSValueRef.str "a", JSValueRef.int 1, JSValueRef.bool true] rfl]
    rfl⟩

/-- Claim C7: two invocations of the network bridge with identical
arguments — even against different host behaviours — perform one host
call each with byte-identical serialized payloads. -/
theorem fetch_two_calls_byte_identical (host1 host2 : ReqCall → HostReturn)
    (args : List JSValueRef) (h : 4 ≤ args.length) :
    (fetch_callback host1 args).2 = (fetch_callback host2 args).2 ∧
    (fetch_callback host1 args).2.length = 1 := by
  constructor
  · rw [fetch_callback_eq host1 args h, fetch_callback_eq host2 args h]
    split <;> split <;> rfl
  · rw [fetch_callback_eq host1 args h]
    split <;> rfl

/-- Witness for C7: one succeeding and one failing host behaviour still
receive identical single payloads. -/
theorem fetch_two_calls_byte_identical_witness :
    4 ≤ ([JSValueRef.str "u", JSValueRef.str "GET", JSValueRef.str "B",
        JSValueRef.str "H"] : List JSValueRef).length ∧
    (fetch_callback (fun _ => ⟨0, 200, 7⟩)
        [JSValueRef.str "u", JSValueRef.str "GET", JSValueRef.str "B",
          JSValueRef.str "H"]).2 =
      (fetch_callback (fun _ => ⟨1, 0, 0⟩)
        [JSValueRef.str "u", JSValueRef.str "GET", JSValueRef.str "B",
          JSValueRef.str "H"]).2 ∧
    (fetch_callback (fun _ => ⟨0, 200, 7⟩)
        [JSValueRef.str "u", JSValueRef.str "GET", JSValueRef.str "B",
          JSValueRef.str "H"]).2.length = 1 :=
  ⟨by decide,
    (fetch_two_calls_byte_identical (fun _ => ⟨0, 200, 7⟩) (fun _ => ⟨1, 0, 0⟩)
      [JSValueRef.str "u", JSValueRef.str "GET", JSValueRef.str "B", JSValueRef.str "H"]
      (by decide)).1,
    (fetch_two_calls_byte_identical (fun _ => ⟨0, 200, 7⟩) (fun _ => ⟨1, 0, 0⟩)
      [JSValueRef.str "u", JSValueRef.str "GET", JSValueRef.str "B", JSValueRef.str "H"]
      (by decide)).2⟩

/-- Claim C8: when the stream write fails, the logging bridge surfaces
that failure as the callback's error, and still makes exactly one write
attempt (no retry, no partial-write recovery). -/
theorem console_log_failure_surfaced (writeErr : String → Option String)
    (args : List JSValueRef) (e : String)
    (h : writeErr (joinWithSpace (args.map JSValueRef.to_string) ++ "\n") = some e) :
    console_log_to writeErr args =
      (Except.error e, [joinWithSpace (args.map JSValueRef.to_string) ++ "\n"]) := by
  rw [console_log_to_eq, h]

/-- Witness for C8: a stream that always fails with "stream closed"
produces that error after a single write attempt. -/
theorem console_log_failure_surfaced_witness :
    ((fun _ => some "stream closed" : String → Option String)
      (joinWithSpace ([JSValueRef.str "a"].map JSValueRef.to_string) ++ "\n")
        = some "stream closed") ∧
    console_log_to (fun _ => some "stream closed") [JSValueRef.str "a"] =
      (Except.error "stream closed", ["a\n"]) :=
  ⟨rfl, by
    rw [console_log_failure_surfaced (fun _ => some "stream closed")
      [JSValueRef.str "a"] "stream closed" rfl]
    rfl⟩

/-- Claim C9: on the success path the bridge's success value is the
single string "fetch result: status code S, response handle H" with S
and H the decimal renderings of the values read from the two output
cells, and every success value the bridge produces is a string. -/
theorem fetch_success_string_form (host : ReqCall → HostReturn) (args : List JSValueRef)
    (h : 4 ≤ args.length) (h0 : (host (serializedCall args)).ret % 2 ^ 32 = 0) :
    (fetch_callback host args).1 =
      Except.ok (JSValue.String ("fetch result: status code " ++
        Nat.repr ((host (serializedCall args)).status % 2 ^ 16) ++
        ", response handle " ++
        Nat.repr ((host (serializedCall args)).handle % 2 ^ 32))) ∧
    ∀ v, (fetch_callback host args).1 = Except.ok v → ∃ s, v = JSValue.String s := by
  have h1 : (fetch_callback host args).1 =
      Except.ok (JSValue.String (fetchResultString
        ((host (serializedCall args)).status % 2 ^ 16)
        ((host (serializedCall args)).handle % 2 ^ 32))) := by
    rw [fetch_callback_eq host args h, if_neg (fun hc => hc h0)]
  constructor
  · exact h1
  · intro v hv
    rw [h1] at hv
    injection hv with hh
    exact ⟨_, hh.symm⟩

/-- Witness for C9: host status 200, handle 7 produce exactly the
string "fetch result: status code 200, response handle 7". -/
theorem fetch_success_string_form_witness :
    4 ≤ ([JSValueRef.str "u", JSValueRef.str "GET", JSValueRef.str "B",
        JSValueRef.str "H"] : List JSValueRef).length ∧
    ((fun _ => (⟨0, 200, 7⟩ : HostReturn))
        (serializedCall [JSValueRef.str "u", JSValueRef.str "GET", JSValueRef.str "B",
          JSValueRef.str "H"])).ret % 2 ^ 32 = 0 ∧
    (fetch_callback (fun _ => ⟨0, 200, 7⟩)
        [JSValueRef.str "u", JSValueRef.str "GET", JSValueRef.str "B",
          JSValueRef.str "H"]).1 =
      Except.ok (JSValue.String "fetch result: status code 200, response handle 7") :=
  ⟨by decide, by decide, by
    rw [(fetch_success_string_form (fun _ => ⟨0, 200, 7⟩)
      [JSValueRef.str "u", JSValueRef.str "GET", JSValueRef.str "B", JSValueRef.str "H"]
      (by decide) (by decide)).1]
    rfl⟩

/-- Claim C10: the network bridge accepts script values of any type in
the first four positions: each argument is coerced to its textual form
before serialization — replacing every argument by the string carrying
its textual form changes nothing — and a non-string argument never
causes an error (the only possible error with enough arguments is the
host failure). -/
theorem fetch_args_any_type_coerced (host : ReqCall → HostReturn) (args : List JSValueRef)
    (h : 4 ≤ args.length) :
    fetch_callback host args =
      fetch_callback host (args.map (fun a => JSValueRef.str a.to_string)) ∧
    ∀ e, (fetch_callback host args).1 = Except.error e → e = "fetch failed" := by
  have hlen : 4 ≤ (args.map (fun a => JSValueRef.str a.to_string)).length := by
    rw [List.length_map]
    omega
  have e0 : (args.map (fun a => JSValueRef.str a.to_string)).getD 0 JSValueRef.undefined
      = JSValueRef.str ((args.getD 0 JSValueRef.undefined).to_string) := by
    rw [List.getD_eq_getElem _ JSValueRef.undefined (by rw [List.length_map]; omega),
      List.getElem_map, List.getD_eq_getElem args JSValueRef.undefined (by omega)]
  have e1 : (args.map (fun a => JSValueRef.str a.to_string)).getD 1 JSValueRef.undefined
      = JSValueRef.str ((args.getD 1 JSValueRef.undefined).to_string) := by
    rw [List.getD_eq_getElem _ JSValueRef.undefined (by rw [List.length_map]; omega),
      List.getElem_map, List.getD_eq_getElem args JSValueRef.undefined (by omega)]
  have e2 : (args.map (fun a => JSValueRef.str a.to_string)).getD 2 JSValueRef.undefined
      = JSValueRef.str ((args.getD 2 JSValueRef.undefined).to_string) := by
    rw [List.getD_eq_getElem _ JSValueRef.undefined (by rw [List.length_map]; omega),
      List.getElem_map, List.getD_eq_getElem args JSValueRef.undefined (by omega)]
  have e3 : (args.map (fun a => JSValueRef.str a.to_string)).getD 3 JSValueRef.undefined
      = JSValueRef.str ((args.getD 3 JSValueRef.undefined).to_string) := by
    rw [List.getD_eq_getElem _ JSValueRef.undefined (by rw [List.length_map]; omega),
      List.getElem_map, List.getD_eq_getElem args JSValueRef.undefined (by omega)]
  have hcall : serializedCall (args.map (fun a => JSValueRef.str a.to_string))
      = serializedCall args := by
    unfold serializedCall
    rw [e0, e1, e2, e3]
    rfl
  constructor
  · rw [fetch_callback_eq host args h,
      fetch_callback_eq host (args.map (fun a => JSValueRef.str a.to_string)) hlen, hcall]
  · intro e he
    rw [fetch_callback_eq host args h] at he
    by_cases hc : (host (serializedCall args)).ret % 2 ^ 32 ≠ 0
    · rw [if_pos hc] at he
      injection he with hh
      exact hh.symm
    · rw [if_neg hc] at he
      exact absurd he (by simp)

/-- Witness for C10 at non-string arguments 7, true, null, undefined:
the bridge behaves exactly as on their textual forms. -/
theorem fetch_args_any_type_coerced_witness :
    4 ≤ ([JSValueRef.int 7, JSValueRef.bool true, JSValueRef.null,
        JSValueRef.undefined] : List JSValueRef).length ∧
    fetch_callback (fun _ => ⟨0, 200, 7⟩)
        [JSValueRef.int 7, JSValueRef.bool true, JSValueRef.null, JSValueRef.undefined] =
      fetch_callback (fun _ => ⟨0, 200, 7⟩)
        ([JSValueRef.int 7, JSValueRef.bool true, JSValueRef.null,
          JSValueRef.undefined].map (fun a => JSValueRef.str a.to_string)) :=
  ⟨by decide,
    (fetch_args_any_type_coerced (fun _ => ⟨0, 200, 7⟩)
      [JSValueRef.int 7, JSValueRef.bool true, JSValueRef.null, JSValueRef.undefined]
      (by decide)).1⟩
